import Mathlib

/-!
Verification development for the gomama_pi serial-to-telemetry pipeline.

Shallow embedding of the core of `sense2.py` (frame parsing and the per-second
state-fold cycle of `start_module`), `send.py` (the MQTT publisher with its
bounded offline queue and drain loop, and the HTTP fallback path), and the
serial-port probing of `init_serial_port`.

Conventions:
- Python `int` is embedded as `Int`, Python `float` as `ℚ` (all values the
  program manipulates are decimal literals, exactly representable).
- The mutable module-level globals of `sense2.py` become the fields of
  `LoopState`; one iteration of the per-second fold (lines 501-627 of
  `start_module`) becomes the pure function `fold_cycle`.
- The `init_data()` re-read of `data.json` at the top of each cycle is
  modelled as the identity (no external writer of the data file).
-/

namespace GomamaPi

/-- One parsed serial frame: the loop-local accumulator variables of
`start_module` (`temp`, `percentage`, `v1` .. `v10`).  `v1` = doorState,
`v2` = ventilation-fan relay, `v3` = AC relay, `v4` = light relay,
`v5` = UV relay, `v6` = human presence sense1, `v7` = human presence sense3,
`v8` = human presence state, `v9` = StateMachine (assigned to
`sense_movement_count`), `v10` = m counter. -/
structure Frame where
  temp : ℚ
  percentage : ℚ
  v1 : Int
  v2 : Int
  v3 : Int
  v4 : Int
  v5 : Int
  v6 : Int
  v7 : Int
  v8 : Int
  v9 : Int
  v10 : Int
deriving Repr, DecidableEq

/-- The PodState snapshot written into `listing_data` each cycle. -/
structure PodState where
  is_occupied : Bool
  is_disinfecting : Bool
  is_door_opened : Bool
  is_led_light_on : Bool
  is_fan_on : Bool
  is_uvc_lamp_on : Bool
  temperature : ℚ
  humidity : ℚ
deriving Repr, DecidableEq

/-- The full mutable state of the fold loop in `sense2.py`: the pod snapshot
plus the auxiliary counters and flags (`start_disinfecting`,
`disinfecting_count`, `reset_cycle_count`, `sense_movement_count`). -/
structure LoopState where
  pod : PodState
  start_disinfecting : Bool
  disinfecting_count : Nat
  reset_cycle_count : Nat
  sense_movement_count : Int
deriving Repr, DecidableEq

/-- `reset_cycle_threshold = 25` (sense2.py line 98). -/
def reset_cycle_threshold : Nat := 25

/-- `set_disinfecting_status(is_set)` (sense2.py lines 353-361), restricted to
its effect on `(is_disinfecting, is_led_light_on, is_fan_on, is_uvc_lamp_on)`:
it sets `is_disinfecting := is_set`; when `is_occupied` it calls
`switch_light_fan_on(not is_set)`; finally `switch_uvc_lamp_on(is_set)`. -/
def set_disinfecting_status (is_set occ led fan : Bool) :
    Bool × Bool × Bool × Bool :=
  (is_set, if occ then !is_set else led, if occ then !is_set else fan, is_set)

/-- Door update (sense2.py lines 512-515): `v1 == 0` closes, `v1 == 1` opens,
any other value leaves `is_door_opened` unchanged. -/
def door_upd (s : LoopState) (f : Frame) : Bool :=
  if f.v1 = 0 then false else if f.v1 = 1 then true else s.pod.is_door_opened

/-- LED update (lines 536-539): `v4 == 0` on, `v4 == 1` off. -/
def led_upd (s : LoopState) (f : Frame) : Bool :=
  if f.v4 = 0 then true else if f.v4 = 1 then false else s.pod.is_led_light_on

/-- Fan/AC update (lines 542-545): `v3 == 0` on, `v3 == 1` off. -/
def fan_upd (s : LoopState) (f : Frame) : Bool :=
  if f.v3 = 0 then true else if f.v3 = 1 then false else s.pod.is_fan_on

/-- UV-lamp update (lines 548-551): `v5 == 0` on, `v5 == 1` off. -/
def uvc_upd (s : LoopState) (f : Frame) : Bool :=
  if f.v5 = 0 then true else if f.v5 = 1 then false else s.pod.is_uvc_lamp_on

/-- One iteration of the per-second fold in `start_module`
(sense2.py lines 501-627), as a pure function of the previous loop state and
the current parsed-value accumulator:

1. `is_listing_status_changed := True`; `sense_movement_count := v9`.
2. Door from `v1`; door open resets `reset_cycle_count`.
3. `is_occupied := (sense_movement_count == 1)`; while occupied the
   `reset_cycle_count` is incremented.
4. LED from `v4`, fan from `v3`, UV lamp from `v5`.
5. `is_uvc_lamp_on` sets `start_disinfecting`.
6. If disinfecting: `disinfecting_count += 1`, and if the lamp is off the
   disinfecting state, `start_disinfecting`, and the counter are cleared.
7. `reset_cycle_count > 25` resets it to zero.
8. Since `is_listing_status_changed` is unconditionally true, a pending
   `start_disinfecting` calls `set_disinfecting_status(True)`.
9. `listing_data` receives the parsed `temp`/`percentage`. -/
def fold_cycle (s : LoopState) (f : Frame) : LoopState :=
  let smc := f.v9
  let door := door_upd s f
  let rcc0 := if door then 0 else s.reset_cycle_count
  let occ : Bool := smc = 1
  let rcc1 := if smc = 1 then rcc0 + 1 else rcc0
  let led := led_upd s f
  let fan := fan_upd s f
  let uvc := uvc_upd s f
  let sd0 := if uvc then true else s.start_disinfecting
  let mid : Bool × Bool × Nat :=
    if s.pod.is_disinfecting then
      let dc := s.disinfecting_count + 1
      if !uvc then (false, false, 0) else (s.pod.is_disinfecting, sd0, dc)
    else (s.pod.is_disinfecting, sd0, s.disinfecting_count)
  let dis1 := mid.1
  let sd1 := mid.2.1
  let dc1 := mid.2.2
  let rcc2 := if rcc1 > reset_cycle_threshold then 0 else rcc1
  let fin : Bool × Bool × Bool × Bool :=
    if sd1 then set_disinfecting_status true occ led fan
    else (dis1, led, fan, uvc)
  { pod := { is_occupied := occ
             is_disinfecting := fin.1
             is_door_opened := door
             is_led_light_on := fin.2.1
             is_fan_on := fin.2.2.1
             is_uvc_lamp_on := fin.2.2.2
             temperature := f.temp
             humidity := f.percentage }
    start_disinfecting := sd1
    disinfecting_count := dc1
    reset_cycle_count := rcc2
    sense_movement_count := smc }

/-- The module-level initial values of the globals of `sense2.py`
(lines 87-105): everything false / zero. -/
def initState : LoopState :=
  { pod := { is_occupied := false
             is_disinfecting := false
             is_door_opened := false
             is_led_light_on := false
             is_fan_on := false
             is_uvc_lamp_on := false
             temperature := 0
             humidity := 0 }
    start_disinfecting := false
    disinfecting_count := 0
    reset_cycle_count := 0
    sense_movement_count := 0 }

/-- States the fold loop can produce, starting from the initial globals and
folding arbitrary frames. -/
inductive Reachable : LoopState → Prop where
  | init : Reachable initState
  | step (s : LoopState) (f : Frame) : Reachable s → Reachable (fold_cycle s f)

/-! ### Frame parsing (sense2.py lines 442-459)

`line.split(';')` followed by the sequential assignments
`temp = float(values[0][:-2])`, `percentage = float(values[1][:-1])`,
`v1 = int(values[2])`, ..., `v10 = int(values[11])`.  The whole block sits in
one `try`, so the first field that fails (missing index, or a string `float`/
`int` rejects) aborts the block with the earlier assignments already applied
to the loop-local accumulator. -/

/-- `line.split(sep)` for a one-character separator, over the character list:
splitting keeps empty fields, and the result is never empty. -/
def splitOnChar (sep : Char) : List Char → List (List Char)
  | [] => [[]]
  | c :: rest =>
    if c = sep then [] :: splitOnChar sep rest
    else
      match splitOnChar sep rest with
      | [] => [[c]]
      | g :: gs => (c :: g) :: gs

/-- Strip leading and trailing whitespace (Python `str.strip()` as applied by
`int`/`float` conversion). -/
def trimChars (cs : List Char) : List Char :=
  ((cs.dropWhile Char.isWhitespace).reverse.dropWhile Char.isWhitespace).reverse

/-- Numeric value of a digit string (caller guarantees all digits). -/
def digitsToNat (cs : List Char) : Nat :=
  cs.foldl (fun n c => 10 * n + (c.toNat - 48)) 0

/-- A nonempty run of ASCII decimal digits. -/
def isDigits (cs : List Char) : Bool :=
  !cs.isEmpty && cs.all Char.isDigit

/-- Python `int(s)`: strip surrounding whitespace, optional sign, then decimal
digits; anything else raises `ValueError`, modelled as `none`. -/
def pyInt? (s : List Char) : Option Int :=
  match trimChars s with
  | '-' :: rest => if isDigits rest then some (-(digitsToNat rest : Int)) else none
  | '+' :: rest => if isDigits rest then some ((digitsToNat rest : Int)) else none
  | cs => if isDigits cs then some ((digitsToNat cs : Int)) else none

/-- Decimal body of a Python float literal: `digits`, `digits.digits`,
`.digits` or `digits.` (at least one digit overall); exponent and
`inf`/`nan` forms never occur in the serial frames and are rejected. -/
def decimalBody? (cs : List Char) : Option ℚ :=
  let ip := cs.takeWhile (fun c => c ≠ '.')
  match cs.dropWhile (fun c => c ≠ '.') with
  | [] => if isDigits ip then some (mkRat (digitsToNat ip) 1) else none
  | _ :: fp =>
    if fp.contains '.' then none
    else if ip.all Char.isDigit && fp.all Char.isDigit &&
        !(ip.isEmpty && fp.isEmpty) then
      some (mkRat (digitsToNat (ip ++ fp)) (10 ^ fp.length))
    else none

/-- Python `float(s)`: strip surrounding whitespace, optional sign, decimal
body; failure raises `ValueError`, modelled as `none`. -/
def pyFloat? (s : List Char) : Option ℚ :=
  match trimChars s with
  | '-' :: rest => (decimalBody? rest).map (fun q => -q)
  | '+' :: rest => decimalBody? rest
  | cs => decimalBody? cs

/-- `float(values[i][:-drop])`: index the split fields, strip the unit suffix
of `drop` characters (`s[:-drop]`), convert.  `none` on IndexError or
ValueError. -/
def floatField? (values : List (List Char)) (i drop : Nat) : Option ℚ :=
  (values.get? i).bind (fun s => pyFloat? (s.take (s.length - drop)))

/-- `int(values[i])`: `none` on IndexError or ValueError. -/
def intField? (values : List (List Char)) (i : Nat) : Option Int :=
  (values.get? i).bind pyInt?

/-- The parse block of `start_module` (lines 442-459) acting on the
accumulator `acc` of loop-local variables: each field is assigned in order,
and the first failing field aborts the block (the exception is caught at line
468), leaving that field and all later ones at their previous values. -/
def parse_line (acc : Frame) (line : String) : Frame :=
  let values := splitOnChar ';' line.toList
  match floatField? values 0 2 with
  | none => acc
  | some temp =>
  let acc := { acc with temp := temp }
  match floatField? values 1 1 with
  | none => acc
  | some percentage =>
  let acc := { acc with percentage := percentage }
  match intField? values 2 with
  | none => acc
  | some v1 =>
  let acc := { acc with v1 := v1 }
  match intField? values 3 with
  | none => acc
  | some v2 =>
  let acc := { acc with v2 := v2 }
  match intField? values 4 with
  | none => acc
  | some v3 =>
  let acc := { acc with v3 := v3 }
  match intField? values 5 with
  | none => acc
  | some v4 =>
  let acc := { acc with v4 := v4 }
  match intField? values 6 with
  | none => acc
  | some v5 =>
  let acc := { acc with v5 := v5 }
  match intField? values 7 with
  | none => acc
  | some v6 =>
  let acc := { acc with v6 := v6 }
  match intField? values 8 with
  | none => acc
  | some v7 =>
  let acc := { acc with v7 := v7 }
  match intField? values 9 with
  | none => acc
  | some v8 =>
  let acc := { acc with v8 := v8 }
  match intField? values 10 with
  | none => acc
  | some v9 =>
  let acc := { acc with v9 := v9 }
  match intField? values 11 with
  | none => acc
  | some v10 => { acc with v10 := v10 }

/-- Initial values of the parse accumulator (`start_module` lines 418-429):
all bit fields 0, `temp = 0.00`, `percentage = 0.00`. -/
def initFrame : Frame :=
  { temp := 0, percentage := 0, v1 := 0, v2 := 0, v3 := 0, v4 := 0, v5 := 0
    v6 := 0, v7 := 0, v8 := 0, v9 := 0, v10 := 0 }

/-! ### Serial port probing (sense2.py `init_serial_port`, lines 637-662)

With no `ser_port_override`, the loop `for i in range(0, 99)` tries to open
`/dev/ttyUSB{i}` and breaks on the first success; a failed open is caught and
logged.  `opens i` abstracts whether `serial.Serial('/dev/ttyUSB' + str(i),..)`
succeeds.  After the loop the function always executes `return True`, whether
or not any port opened (`ser` simply stays `None`). -/

/-- The probe loop: first index in `[start, start + fuel)` whose port opens. -/
def probe_ports (opens : Nat → Bool) : Nat → Nat → Option Nat
  | _, 0 => none
  | start, fuel + 1 =>
    if opens start then some start else probe_ports opens (start + 1) fuel

/-- `init_serial_port()` with `ser_port_override=None`: returns the bound port
index (the content of `ser_port_found` / `ser`, `none` when every candidate
failed) paired with the function's return value, which is the literal
`return True` at line 662 — there is no error return. -/
def init_serial_port (opens : Nat → Bool) : Option Nat × Bool :=
  (probe_ports opens 0 99, true)

end GomamaPi

namespace GomamaSend

/-! ### The telemetry publisher (`send.py`)

The MQTT side effects are abstracted: `Conn` captures the three conditions
`MQTT_AVAILABLE`, `mqtt_connected`, `mqtt_client is not None` that
`publish_mqtt_message` tests, and the outcome of an actual
`mqtt_client.publish` call (`result.rc == MQTT_ERR_SUCCESS`, or an exception)
is supplied as a boolean oracle. -/

/-- One entry of `offline_message_queue`: the `(topic, payload, time.time())`
triple appended at line 301. -/
structure Entry where
  topic : String
  payload : String
  enqueued_at : Nat
deriving Repr, DecidableEq

/-- The connection facts tested by `publish_mqtt_message` line 298. -/
structure Conn where
  mqtt_available : Bool
  mqtt_connected : Bool
  client_present : Bool
deriving Repr, DecidableEq

/-- `not (not MQTT_AVAILABLE or not mqtt_connected or not mqtt_client)`. -/
def canPublish (c : Conn) : Bool :=
  c.mqtt_available && c.mqtt_connected && c.client_present

/-- `publish_mqtt_message(topic, payload)` (send.py lines 294-325) acting on
the offline queue.  Returns `(result, new queue, loss events logged)`:

* transport unavailable: if the queue holds fewer than
  `offline_buffer_size` (`cap`) entries, append `(topic, payload, now)` and
  return `False`; otherwise log the one "queue is full, dropping message"
  error and return `False` with the queue unchanged;
* transport available: publish, return the publish outcome (`pub_ok` covers
  both a non-success `result.rc` and a raised exception), queue untouched. -/
def publish_mqtt_message (c : Conn) (cap : Nat) (pub_ok : Bool) (now : Nat)
    (topic payload : String) (q : List Entry) : Bool × List Entry × Nat :=
  if !canPublish c then
    if q.length < cap then (false, q ++ [⟨topic, payload, now⟩], 0)
    else (false, q, 1)
  else (pub_ok, q, 0)

/-- `process_offline_queue()` (send.py lines 327-347): while the queue is
nonempty, pop the head; entries older than 300 seconds are dropped; otherwise
republish through `publish_mqtt_message`, and on failure push the entry back
at the front (`appendleft`) and stop.  The second component records the
successfully republished entries in delivery order. -/
def process_offline_queue (c : Conn) (cap : Nat)
    (pub_ok : String → String → Bool) (now : Nat) :
    List Entry → List Entry × List Entry
  | [] => ([], [])
  | e :: rest =>
    if now - e.enqueued_at > 300 then
      process_offline_queue c cap pub_ok now rest
    else
      let r := publish_mqtt_message c cap (pub_ok e.topic e.payload) now
          e.topic e.payload rest
      if r.1 then
        let res := process_offline_queue c cap pub_ok now rest
        (res.1, e :: res.2)
      else (e :: r.2.1, [])

/-! ### HTTP fallback (`send.py` lines 403-531) -/

/-- What `requests.post` did inside `post_https`. -/
inductive PostOutcome where
  | ok (response : String)
  | requestError
  | httpError
  | connectionError
  | timeoutError
  | otherError
deriving Repr, DecidableEq

/-- The POST delivered the payload only in the `ok` case. -/
def delivered : PostOutcome → Bool
  | .ok _ => true
  | _ => false

/-- `requests.post(...)` as seen by `post_https`. -/
def requests_post (o : PostOutcome) : Except PostOutcome String :=
  match o with
  | .ok r => .ok r
  | e => .error e

/-- `post_https(pi_key_hashed)` (send.py lines 403-427): the `try` body posts
and logs the response; every `except` arm (`RequestException`, `HTTPError`,
`ConnectionError`, `Timeout`, bare `except`) only logs and `pass`es, so the
function always returns normally (`.ok ()`), never propagating an error. -/
def post_https (o : PostOutcome) : Except String Unit :=
  match requests_post o with
  | .ok _ => .ok ()
  | .error .requestError => .ok ()
  | .error .httpError => .ok ()
  | .error .connectionError => .ok ()
  | .error .timeoutError => .ok ()
  | .error _ => .ok ()

/-- `send_data_http()` (send.py lines 469-493): fills `listing_data`, calls
`post_https`, and returns `True`; the `except` arm returning `False` is
reachable only if the body raises, and `post_https` never does. -/
def send_data_http (o : PostOutcome) : Bool :=
  match post_https o with
  | .ok _ => true
  | .error _ => false

/-- `update_and_send_data()` (send.py lines 495-531), with the MQTT leg
abstracted: when MQTT is enabled and (after a connect attempt) connected, the
MQTT result is `mqtt_result`; otherwise the MQTT leg yields no success.  On
failure with HTTP fallback enabled, `send_data_http` decides the result. -/
def update_and_send_data (mqtt_enabled connected mqtt_result : Bool)
    (fallback_enabled : Bool) (o : PostOutcome) : Bool :=
  let success := if mqtt_enabled && connected then mqtt_result else false
  if !success && fallback_enabled then send_data_http o else success

end GomamaSend

namespace GomamaPi

/-! ### Concrete inputs used by the claim theorems below -/

/-- A frame whose StateMachine field reports presence (`v9 = 1`) while all
relay bits are 0 (active), in particular the UV relay bit `v5 = 0`. -/
def frameV9one : Frame := { initFrame with v9 := 1 }

/-- A frame whose UV relay bit is 1 (lamp off), everything else 0. -/
def frameUVoff : Frame := { initFrame with v5 := 1 }

/-- A frame whose door bit is 1 (door open), everything else 0. -/
def frameDoorOpen : Frame := { initFrame with v1 := 1 }

/-- The loop state after folding one all-zero-bits frame from the initial
state (the UV relay bit 0 means the lamp is on, so this state is
disinfecting). -/
def stateDisinfecting : LoopState := fold_cycle initState initFrame

/-- The serial frame of Scenario 1 of the specification. -/
def scenario1Line : String := "25.50C;60.00%;0;0;0;0;0;1;0;1"

/-- The loop state after parsing and folding the Scenario 1 frame from the
initial state. -/
def scenario1State : LoopState :=
  fold_cycle initState (parse_line initFrame scenario1Line)

/-- A malformed line: only three `;`-separated fields, so `int(values[3])`
raises IndexError — but only after `temp`, `percentage` and `v1` were already
assigned. -/
def malformedLine : String := "99.90C;10.00%;1"

/-- The loop state after the malformed line is (partially) parsed and the
next fold cycle runs. -/
def malformedState : LoopState :=
  fold_cycle initState (parse_line initFrame malformedLine)

/-- A port-probe oracle under which only `/dev/ttyUSB3` opens. -/
def opens3 : Nat → Bool := fun i => i == 3

end GomamaPi

namespace GomamaSend

/-- Transport fully available: library imported, connected, client present. -/
def connUp : Conn := { mqtt_available := true, mqtt_connected := true, client_present := true }

/-- Library imported and client present, but the broker is not connected. -/
def connDown : Conn := { mqtt_available := true, mqtt_connected := false, client_present := true }

end GomamaSend

namespace GomamaPi

/-! ### State-machine lemmas -/

/-- After every fold cycle, `start_disinfecting` and `is_disinfecting` agree:
whenever `start_disinfecting` survives to the end of the cycle,
`set_disinfecting_status(True)` has run. -/
theorem fold_sd_eq_dis (s : LoopState) (f : Frame) :
    (fold_cycle s f).start_disinfecting = (fold_cycle s f).pod.is_disinfecting := by
  unfold fold_cycle
  cases hd : s.pod.is_disinfecting <;> cases hu : uvc_upd s f <;>
    cases hs : s.start_disinfecting <;>
    simp [hd, hu, hs, set_disinfecting_status]

/-- The agreement of `start_disinfecting` and `is_disinfecting` holds in
every reachable state (both start out `False`). -/
theorem reachable_sd_eq (s : LoopState) (h : Reachable s) :
    s.start_disinfecting = s.pod.is_disinfecting := by
  induction h with
  | init => rfl
  | step s0 f _ _ => exact fold_sd_eq_dis s0 f

/-- On any state where `start_disinfecting = is_disinfecting`, the fold cycle
leaves the pod disinfecting exactly when the UV lamp is on after the relay
update from the frame. -/
theorem fold_dis_eq_uvc (s : LoopState) (f : Frame)
    (hinv : s.start_disinfecting = s.pod.is_disinfecting) :
    (fold_cycle s f).pod.is_disinfecting = uvc_upd s f := by
  unfold fold_cycle
  cases hd : s.pod.is_disinfecting <;> cases hu : uvc_upd s f <;>
    simp [hd, hu, hd ▸ hinv, set_disinfecting_status]

/-- After every fold cycle, disinfecting implies the UV lamp is on:
`set_disinfecting_status(True)` switches the lamp on whenever it runs. -/
theorem fold_dis_imp_uvc (s : LoopState) (f : Frame) :
    (fold_cycle s f).pod.is_disinfecting = true →
    (fold_cycle s f).pod.is_uvc_lamp_on = true := by
  unfold fold_cycle
  cases hd : s.pod.is_disinfecting <;> cases hu : uvc_upd s f <;>
    cases hs : s.start_disinfecting <;>
    simp [hd, hu, hs, set_disinfecting_status]

/-! ### C1 -/

/-- C1 counterexample: the claim "occupied and disinfecting never hold
simultaneously, and occupied implies the UV lamp is off" is false on the
code.  One fold cycle from the initial state with a frame reporting presence
(`v9 = 1`) and UV relay bit 0 produces a reachable state that is occupied,
disinfecting, and has the UV lamp on: nothing in the fold path ever checks
occupancy before calling `set_disinfecting_status(True)`. -/
theorem c1_counterexample :
    Reachable (fold_cycle initState frameV9one) ∧
    (fold_cycle initState frameV9one).pod.is_occupied = true ∧
    (fold_cycle initState frameV9one).pod.is_disinfecting = true ∧
    (fold_cycle initState frameV9one).pod.is_uvc_lamp_on = true :=
  ⟨Reachable.step _ _ Reachable.init, by decide, by decide, by decide⟩

/-- C1 (amended): of the claimed invariant only the part derivable from
`set_disinfecting_status` survives: in every reachable state of the fold
cycle, `is_disinfecting = true` implies `is_uvc_lamp_on = true`.  The state
fold does not prevent `occupied` and `disinfecting` from holding at once. -/
theorem c1_theorem (s : LoopState) (h : Reachable s)
    (hdis : s.pod.is_disinfecting = true) : s.pod.is_uvc_lamp_on = true := by
  induction h with
  | init => exact absurd hdis (by decide)
  | step s0 f _ _ => exact fold_dis_imp_uvc s0 f hdis

/-- C1 witness: a concrete reachable disinfecting state, with the conclusion
of `c1_theorem` evaluated there. -/
theorem c1_witness :
    Reachable stateDisinfecting ∧
    stateDisinfecting.pod.is_disinfecting = true ∧
    stateDisinfecting.pod.is_uvc_lamp_on = true :=
  ⟨Reachable.step _ _ Reachable.init, by decide,
    c1_theorem stateDisinfecting (Reachable.step _ _ Reachable.init) (by decide)⟩

/-! ### C2 -/

/-- C2 counterexample: the claim "the machine enters disinfecting only on a
cycle where the pod was previously occupied and is now not occupied" is false
on the code: from the initial state (never occupied, not disinfecting), one
fold of an all-zero-bits frame (UV relay bit 0, i.e. lamp on) enters
disinfecting.  `start_module` raises `start_disinfecting` from the UV lamp
state alone (lines 554-555); the occupancy-transition logic lives only in
`set_occupied_status`, which the fold loop never calls. -/
theorem c2_counterexample :
    initState.pod.is_occupied = false ∧
    initState.pod.is_disinfecting = false ∧
    (fold_cycle initState initFrame).pod.is_disinfecting = true := by
  refine ⟨by decide, by decide, by decide⟩

/-- C2 (amended): on every reachable state, a fold cycle leaves the machine
disinfecting exactly when the UV lamp is on after the frame's relay update —
irrespective of occupancy or the door.  The exit half of the claim holds as
stated: when disinfecting and the lamp turns off, the cycle clears
`is_disinfecting` and `start_disinfecting` and resets the
disinfecting-cycle counter to zero; while the lamp stays on, disinfecting
persists and the counter increments. -/
theorem c2_theorem (s : LoopState) (f : Frame) (h : Reachable s) :
    ((fold_cycle s f).pod.is_disinfecting = uvc_upd s f) ∧
    (s.pod.is_disinfecting = true → uvc_upd s f = false →
      (fold_cycle s f).pod.is_disinfecting = false ∧
      (fold_cycle s f).start_disinfecting = false ∧
      (fold_cycle s f).disinfecting_count = 0) ∧
    (s.pod.is_disinfecting = true → uvc_upd s f = true →
      (fold_cycle s f).pod.is_disinfecting = true ∧
      (fold_cycle s f).disinfecting_count = s.disinfecting_count + 1) := by
  refine ⟨fold_dis_eq_uvc s f (reachable_sd_eq s h), ?_, ?_⟩ <;>
    intro hd hu <;>
    · unfold fold_cycle
      simp [hd, hu, set_disinfecting_status]

/-- C2 witness: from the concrete reachable disinfecting state, a frame with
UV relay bit 1 (lamp off) clears disinfecting and resets the counter. -/
theorem c2_witness :
    (fold_cycle stateDisinfecting frameUVoff).pod.is_disinfecting = false ∧
    (fold_cycle stateDisinfecting frameUVoff).start_disinfecting = false ∧
    (fold_cycle stateDisinfecting frameUVoff).disinfecting_count = 0 :=
  (c2_theorem stateDisinfecting frameUVoff
    (Reachable.step _ _ Reachable.init)).2.1 (by decide) (by decide)

/-! ### C8 -/

/-- C8 counterexample: the claim "the debounce counter is reset to zero while
occupied and incremented while not occupied" is false on the code — the code
does the opposite.  From the initial state (counter 0), a frame with `v9 = 1`
yields an occupied state with counter 1 (incremented, not reset), and a frame
with `v9 = 0` yields a not-occupied state with counter still 0 (not
incremented). -/
theorem c8_counterexample :
    (fold_cycle initState frameV9one).pod.is_occupied = true ∧
    (fold_cycle initState frameV9one).reset_cycle_count = 1 ∧
    (fold_cycle initState initFrame).pod.is_occupied = false ∧
    (fold_cycle initState initFrame).reset_cycle_count = 0 := by
  refine ⟨by decide, by decide, by decide, by decide⟩

/-- C8 (amended): on each fold cycle `occupied = (v9 == 1)` (the field
assigned to `sense_movement_count`); the debounce counter `reset_cycle_count`
is reset to zero when the door is open, incremented while occupied, left
unchanged while not occupied (when not already above the threshold), and
reset to zero once it exceeds the threshold of 25 cycles. -/
theorem c8_theorem (s : LoopState) (f : Frame) :
    ((fold_cycle s f).pod.is_occupied = true ↔ f.v9 = 1) ∧
    (f.v9 = 1 → door_upd s f = false →
      (fold_cycle s f).reset_cycle_count =
        if s.reset_cycle_count + 1 > reset_cycle_threshold then 0
        else s.reset_cycle_count + 1) ∧
    (f.v9 ≠ 1 → door_upd s f = false →
      s.reset_cycle_count ≤ reset_cycle_threshold →
      (fold_cycle s f).reset_cycle_count = s.reset_cycle_count) ∧
    (door_upd s f = true →
      (fold_cycle s f).reset_cycle_count = if f.v9 = 1 then 1 else 0) := by
  refine ⟨?_, ?_, ?_, ?_⟩
  · unfold fold_cycle
    by_cases h9 : f.v9 = 1 <;> simp [h9]
  · intro h9 hdoor
    unfold fold_cycle
    simp [h9, hdoor]
  · intro h9 hdoor hle
    unfold fold_cycle
    simp [h9, hdoor]
    omega
  · intro hdoor
    unfold fold_cycle
    by_cases h9 : f.v9 = 1 <;> simp [h9, hdoor, reset_cycle_threshold]

/-- C8 witness: the three conditional parts of `c8_theorem` evaluated on
concrete frames (occupied, not occupied, door open). -/
theorem c8_witness :
    ((fold_cycle initState frameV9one).reset_cycle_count =
      if initState.reset_cycle_count + 1 > reset_cycle_threshold then 0
      else initState.reset_cycle_count + 1) ∧
    ((fold_cycle initState initFrame).reset_cycle_count =
      initState.reset_cycle_count) ∧
    ((fold_cycle initState frameDoorOpen).reset_cycle_count =
      if frameDoorOpen.v9 = 1 then 1 else 0) :=
  ⟨(c8_theorem initState frameV9one).2.1 (by decide) (by decide),
   (c8_theorem initState initFrame).2.2.1 (by decide) (by decide) (by decide),
   (c8_theorem initState frameDoorOpen).2.2.2 (by decide)⟩

/-! ### C3 -/

/-- C3 counterexample: the claim says the Scenario 1 frame yields
`door_opened = true` for its door bit 0, but the code maps door bit 0 to
`is_door_opened = False` (sense2.py lines 512-513), consistently with the
claim's own general rule `door_opened = (door_bit == 1)`. -/
theorem c3_counterexample :
    (parse_line initFrame scenario1Line).v1 = 0 ∧
    scenario1State.pod.is_door_opened = false := by
  refine ⟨by decide, by decide⟩

/-- C3 (amended): parsing and folding the frame
`"25.50C;60.00%;0;0;0;0;0;1;0;1"` yields temperature 25.5, humidity 60.0,
`uvc_lamp_on = true` for its UV-relay bit 0, and `door_opened = false` for
its door bit 0; in general, for door bits 0 and 1, `door_opened` equals
`door_bit == 1`. -/
theorem c3_theorem :
    scenario1State.pod.temperature = 25.5 ∧
    scenario1State.pod.humidity = 60 ∧
    scenario1State.pod.is_uvc_lamp_on = true ∧
    scenario1State.pod.is_door_opened = false ∧
    ∀ (s : LoopState) (f : Frame), f.v1 = 0 ∨ f.v1 = 1 →
      ((fold_cycle s f).pod.is_door_opened = true ↔ f.v1 = 1) := by
  refine ⟨?_, by decide, by decide, by decide, ?_⟩
  · have h : scenario1State.pod.temperature = mkRat 51 2 := by decide
    rw [h]; norm_num
  · intro s f h1
    have hdoor : (fold_cycle s f).pod.is_door_opened = door_upd s f := rfl
    rcases h1 with h | h <;> rw [hdoor] <;> simp [door_upd, h]

/-- C3 witness: the general door rule of `c3_theorem` applied to the
Scenario 1 frame itself (door bit 0). -/
theorem c3_witness :
    (fold_cycle initState (parse_line initFrame scenario1Line)).pod.is_door_opened = true ↔
      (parse_line initFrame scenario1Line).v1 = 1 :=
  c3_theorem.2.2.2.2 initState (parse_line initFrame scenario1Line)
    (Or.inl (by decide))

/-! ### C7 -/

/-- C7 counterexample: the claim "for every malformed serial line the frame is
dropped and every field of the previous PodState is retained unchanged" is
false on the code.  The three-field line `"99.90C;10.00%;1"` is malformed
(`int(values[3])` raises IndexError, shown here as `intField? _ 3 = none`),
yet the assignments that ran before the exception already updated `temp`,
`percentage` and the door bit, and the next fold cycle moves them into
PodState: temperature becomes 99.9 and the door opens, differing from the
previous state. -/
theorem c7_counterexample :
    intField? (splitOnChar ';' malformedLine.toList) 3 = none ∧
    malformedState.pod.temperature ≠ initState.pod.temperature ∧
    malformedState.pod.is_door_opened = true ∧
    initState.pod.is_door_opened = false := by
  refine ⟨by decide, by decide, by decide, by decide⟩

/-- C7 (amended): no malformed line crashes the pipeline (the parse block
always returns, the exception being caught at line 468), and a line whose
first field already fails to parse leaves the frame — hence the next folded
PodState — unchanged; but in general a malformed line keeps only the fields
at and after the first failing position: fields parsed before the failure
(for `"99.90C;10.00%;1"`: temperature, humidity and the door bit) are
updated and folded into PodState on the next cycle. -/
theorem c7_theorem :
    (∀ (acc : Frame) (line : String),
      floatField? (splitOnChar ';' line.toList) 0 2 = none →
        parse_line acc line = acc) ∧
    parse_line initFrame malformedLine =
      { initFrame with temp := mkRat 999 10, percentage := 10, v1 := 1 } := by
  refine ⟨?_, by decide⟩
  intro acc line h
  unfold parse_line
  simp only [String.toList] at h
  simp [h]

/-- C7 witness: a line whose first field is not numeric parses to the
unchanged accumulator. -/
theorem c7_witness : parse_line initFrame "garbage" = initFrame :=
  c7_theorem.1 initFrame "garbage" (by decide)

/-! ### C9 -/

/-- A successful probe returns the first index in range whose port opens. -/
theorem probe_ports_some (opens : Nat → Bool) :
    ∀ (fuel start k : Nat), probe_ports opens start fuel = some k →
      opens k = true ∧ start ≤ k ∧ k < start + fuel ∧
        ∀ j, start ≤ j → j < k → opens j = false := by
  intro fuel
  induction fuel with
  | zero => intro start k h; simp [probe_ports] at h
  | succ n ih =>
    intro start k h
    rw [probe_ports] at h
    cases hb : opens start
    · rw [hb] at h
      simp only [Bool.false_eq_true, if_false] at h
      obtain ⟨h1, h2, h3, h4⟩ := ih (start + 1) k h
      refine ⟨h1, by omega, by omega, fun j hj1 hj2 => ?_⟩
      rcases Nat.eq_or_lt_of_le hj1 with he | hl
      · exact he ▸ hb
      · exact h4 j hl hj2
    · rw [hb] at h
      simp only [if_true] at h
      cases h
      exact ⟨hb, Nat.le_refl _, by omega, fun j hj1 hj2 => by omega⟩

/-- When no port in range opens, the probe loop finds nothing. -/
theorem probe_ports_none (opens : Nat → Bool) :
    ∀ (fuel start : Nat),
      (∀ j, start ≤ j → j < start + fuel → opens j = false) →
      probe_ports opens start fuel = none := by
  intro fuel
  induction fuel with
  | zero => intro start _; rfl
  | succ n ih =>
    intro start h
    rw [probe_ports, h start (Nat.le_refl _) (by omega)]
    simp only [Bool.false_eq_true, if_false]
    exact ih (start + 1) (fun j h1 h2 => h j (by omega) (by omega))

/-- C9 counterexample: the claim "port initialisation fails with a
no-port-available error when none of the candidates opens" is false on the
code: with every open failing, `init_serial_port()` leaves `ser = None`
(first component `none`) and still executes its only return statement,
`return True` (line 662) — there is no error path. -/
theorem c9_counterexample :
    init_serial_port (fun _ => false) = (none, true) := by decide

/-- C9 (amended): with no explicit port, `init_serial_port` probes the
bounded candidate range `/dev/ttyUSB0` .. `/dev/ttyUSB98` in order and binds
to the first that opens; but when none opens it does not fail — it leaves the
serial handle unset and still returns `True`. -/
theorem c9_theorem (opens : Nat → Bool) :
    (init_serial_port opens).2 = true ∧
    (∀ k, (init_serial_port opens).1 = some k →
      opens k = true ∧ k < 99 ∧ ∀ j, j < k → opens j = false) ∧
    ((∀ j, j < 99 → opens j = false) → (init_serial_port opens).1 = none) := by
  refine ⟨rfl, ?_, ?_⟩
  · intro k h
    obtain ⟨h1, _, h3, h4⟩ := probe_ports_some opens 99 0 k h
    exact ⟨h1, by omega, fun j hj => h4 j (Nat.zero_le _) hj⟩
  · intro h
    exact probe_ports_none opens 99 0 (fun j _ h2 => h j (by omega))

/-- C9 witness: the no-port case returns `none` (yet `True`), and with only
`/dev/ttyUSB3` opening the loop binds port 3 with all earlier probes
failed. -/
theorem c9_witness :
    ((init_serial_port (fun _ => false)).1 = none) ∧
    (opens3 3 = true ∧ 3 < 99 ∧ ∀ j, j < 3 → opens3 j = false) :=
  ⟨(c9_theorem (fun _ => false)).2.2 (fun _ _ => rfl),
   (c9_theorem opens3).2.1 3 (by decide)⟩

end GomamaPi

namespace GomamaSend

/-! ### C4 -/

/-- C4 counterexample: the claim "a failed publish while connected is
preserved in the queue" is false on the code.  With the transport fully
available and the publish failing (`result.rc != MQTT_ERR_SUCCESS`),
`publish_mqtt_message` returns `False` with the offline queue untouched
(still empty): the enqueue branch runs only when the transport is
unavailable (send.py line 298). -/
theorem c4_counterexample :
    publish_mqtt_message connUp 100 false 0 "t" "p" [] = (false, [], 0) := by
  decide

/-- C4 (amended): the publisher attempts to enqueue into the offline queue
exactly when the primary transport is unavailable (library missing, not
connected, or no client object); a publish failure while connected returns
`False` without enqueueing — the message is dropped, not preserved. -/
theorem c4_theorem (c : Conn) (cap : Nat) (pub_ok : Bool) (now : Nat)
    (t p : String) (q : List Entry) :
    (canPublish c = false →
      (publish_mqtt_message c cap pub_ok now t p q).1 = false ∧
      (publish_mqtt_message c cap pub_ok now t p q).2.1 =
        (if q.length < cap then q ++ [⟨t, p, now⟩] else q)) ∧
    (canPublish c = true →
      publish_mqtt_message c cap pub_ok now t p q = (pub_ok, q, 0)) := by
  constructor <;> intro h
  · by_cases hl : q.length < cap <;> simp [publish_mqtt_message, h, hl]
  · simp [publish_mqtt_message, h]

/-- C4 witness: an offline send with room in the queue enqueues the
message. -/
theorem c4_witness :
    (publish_mqtt_message connDown 100 false 7 "topic" "payload" []).2.1 =
      (if ([] : List Entry).length < 100 then
        ([] : List Entry) ++ [⟨"topic", "payload", 7⟩] else []) :=
  ((c4_theorem connDown 100 false 7 "topic" "payload" []).1 (by decide)).2

/-! ### C6 -/

/-- C6: enqueueing into a full offline queue (length = capacity) rejects the
new message (queue unchanged, hence still at capacity), returns `False`, and
logs exactly one loss event ("Offline message queue is full, dropping
message"). -/
theorem c6_theorem (c : Conn) (cap : Nat) (pub_ok : Bool) (now : Nat)
    (t p : String) (q : List Entry)
    (hc : canPublish c = false) (hfull : q.length = cap) :
    publish_mqtt_message c cap pub_ok now t p q = (false, q, 1) := by
  simp [publish_mqtt_message, hc, hfull]

/-- C6 witness: a concrete full queue of capacity 2 rejects the new message
with one loss event. -/
theorem c6_witness :
    publish_mqtt_message connDown 2 false 9 "t" "p"
      [⟨"a", "x", 0⟩, ⟨"b", "y", 1⟩] =
      (false, [⟨"a", "x", 0⟩, ⟨"b", "y", 1⟩], 1) :=
  c6_theorem connDown 2 false 9 "t" "p" _ (by decide) (by decide)

/-! ### C5 -/

/-- C5: draining the offline queue delivers entries in FIFO order (the
delivered list is an ordered sublist of the queue); on a connected transport
the surviving queue is a suffix of the original (order preserved); a
non-stale head whose publish fails is re-queued at the front and draining
stops; and the retention boundary is strict at 300 seconds: an entry
enqueued at t=0 is replayed at t=299 but discarded (not delivered) at
t=301. -/
theorem c5_theorem :
    (∀ (c : Conn) (cap : Nat) (pub_ok : String → String → Bool) (now : Nat)
        (q : List Entry),
      List.Sublist (process_offline_queue c cap pub_ok now q).2 q) ∧
    (∀ (c : Conn) (cap : Nat) (pub_ok : String → String → Bool) (now : Nat)
        (q : List Entry), canPublish c = true →
      List.IsSuffix (process_offline_queue c cap pub_ok now q).1 q) ∧
    (∀ (c : Conn) (cap : Nat) (pub_ok : String → String → Bool) (now : Nat)
        (e : Entry) (rest : List Entry), canPublish c = true →
      ¬(now - e.enqueued_at > 300) → pub_ok e.topic e.payload = false →
      process_offline_queue c cap pub_ok now (e :: rest) = (e :: rest, [])) ∧
    process_offline_queue connUp 10 (fun _ _ => true) 299 [⟨"t", "p", 0⟩] =
      ([], [⟨"t", "p", 0⟩]) ∧
    process_offline_queue connUp 10 (fun _ _ => true) 301 [⟨"t", "p", 0⟩] =
      ([], []) := by
  refine ⟨?_, ?_, ?_, by decide, by decide⟩
  · intro c cap pub_ok now q
    induction q with
    | nil => simp [process_offline_queue]
    | cons e rest ih =>
      unfold process_offline_queue
      by_cases hst : now - e.enqueued_at > 300
      · simpa [hst] using List.Sublist.cons e ih
      · by_cases hcp : canPublish c
        · by_cases hpo : pub_ok e.topic e.payload
          · simpa [hst, hcp, hpo, publish_mqtt_message] using
              List.Sublist.cons₂ e ih
          · simp [hst, hcp, hpo, publish_mqtt_message]
        · simp only [Bool.not_eq_true] at hcp
          by_cases hl : rest.length < cap <;>
            simp [hst, hcp, hl, publish_mqtt_message]
  · intro c cap pub_ok now q hcp
    induction q with
    | nil => simp [process_offline_queue]
    | cons e rest ih =>
      unfold process_offline_queue
      by_cases hst : now - e.enqueued_at > 300
      · simp only [if_pos hst]
        exact ih.trans (List.suffix_cons e rest)
      · by_cases hpo : pub_ok e.topic e.payload
        · have hr : publish_mqtt_message c cap (pub_ok e.topic e.payload) now
              e.topic e.payload rest = (true, rest, 0) := by
            simp [publish_mqtt_message, hcp, hpo]
          simp only [if_neg hst, hr]
          simpa using ih.trans (List.suffix_cons e rest)
        · have hr : publish_mqtt_message c cap (pub_ok e.topic e.payload) now
              e.topic e.payload rest = (false, rest, 0) := by
            simp [publish_mqtt_message, hcp, hpo]
          simp only [if_neg hst, hr]
          simp
  · intro c cap pub_ok now e rest hcp hst hpo
    unfold process_offline_queue
    simp [hst, hcp, hpo, publish_mqtt_message]

/-- C5 witness: a concrete two-entry queue whose head publish fails is left
intact with nothing delivered. -/
theorem c5_witness :
    process_offline_queue connUp 10 (fun _ _ => false) 5
      [⟨"a", "x", 0⟩, ⟨"b", "y", 1⟩] =
      ([⟨"a", "x", 0⟩, ⟨"b", "y", 1⟩], []) :=
  c5_theorem.2.2.1 connUp 10 (fun _ _ => false) 5 ⟨"a", "x", 0⟩
    [⟨"b", "y", 1⟩] (by decide) (by decide) (by decide)

/-! ### C10 -/

/-- C10: `send_data_http` returns `True` for every POST outcome — including
every failure `requests.post` can raise — because every `except` arm of
`post_https` swallows the error; a `True` from the fallback path therefore
does not imply delivery (`delivered` is `false` for a connection error while
`send_data_http` still reports `true`), and `update_and_send_data` in
HTTP-only mode reports success for every outcome. -/
theorem c10_theorem :
    (∀ o : PostOutcome, send_data_http o = true) ∧
    delivered PostOutcome.connectionError = false ∧
    send_data_http PostOutcome.connectionError = true ∧
    (∀ o : PostOutcome, update_and_send_data false false false true o = true) := by
  refine ⟨fun o => ?_, rfl, rfl, fun o => ?_⟩ <;> cases o <;> rfl

end GomamaSend
